import Mathlib

/-! jnipp: scoped JNI references

A shallow embedding of `src/jnipp.h` and `src/jnipp.cpp`.

The host runtime (the Java VM behind `JavaVM*` and `JNIEnv*`) is external to the
repository.  It is modelled as an arbitrary deterministic service: a `Runtime`
gives, for every call and every call history, the value the call returns.
Every call the wrappers make is appended to a log (`World`), which plays the
role of an instrumented runtime interface; the theorems speak about the calls
appended to that log.

Handles and pointers are natural numbers with `0` for null.  The interface
pointer a call goes through is recorded with the call; the source dereferences
these pointers without a check, so the statements are read for wrappers over a
live interface.  A failed `assert` ends the run (`Except.error`).
-/

namespace jnipp

/-! ## Handles, pointers and constants of `jni.h` -/

/-- Managed reference handle (`jobject`); `0` is the null handle. -/
abbrev jobject := Nat
/-- Class handle (`jclass`). -/
abbrev jclass := Nat
/-- String handle (`jstring`). -/
abbrev jstring := Nat
/-- Throwable handle (`jthrowable`). -/
abbrev jthrowable := Nat
/-- Pointer to a thread interface (`JNIEnv*`); `0` is null. -/
abbrev JNIEnvPtr := Nat
/-- Pointer to the process interface (`JavaVM*`); `0` is null. -/
abbrev JavaVMPtr := Nat
/-- Address of character data (`char const*`); `0` is null. -/
abbrev CharPtr := Nat
/-- Result code of the process interface (`jint`). -/
abbrev jint := Int

/-- Success code of `jni.h`. -/
def JNI_OK : jint := 0
/-- Code of `jni.h` reporting that the thread is not attached. -/
def JNI_EDETACHED : jint := -2
/-- Version constant passed to `GetEnv`. -/
def JNI_VERSION_1_6 : jint := 0x00010006

/-- Largest `size_t` value (64-bit target): what `-1` converts to. -/
def SIZE_MAX : Nat := 2 ^ 64 - 1

/-- Text behind a `char const*` argument: its address and the bytes stored
from that address on. -/
structure CString where
  addr : CharPtr
  bytes : List Nat
deriving DecidableEq

/-- Bytes of the text before its terminator (the first zero byte). -/
def CString.upToTerminator (p : CString) : List Nat :=
  p.bytes.takeWhile (fun b => b != 0)

/-- C library `strlen`: number of bytes before the terminator. -/
def strlen (p : CString) : Nat :=
  p.upToTerminator.length

/-! ## The runtime interface and the call log -/

/-- Functions of the process interface (`JavaVM`) used by the source. -/
inductive VMCall where
  | GetEnv (version : jint)
  | AttachCurrentThread
  | DetachCurrentThread
deriving DecidableEq

/-- Functions of the thread interface (`JNIEnv`) that concern references,
pending failures and strings, each with its arguments. -/
inductive JNICall where
  | FindClass (name : CString)
  | GetObjectClass (o : jobject)
  | ExceptionOccurred
  | ExceptionDescribe
  | ExceptionClear
  | DeleteLocalRef (h : jobject)
  | NewGlobalRef (h : jobject)
  | DeleteGlobalRef (h : jobject)
  | NewStringUTF (p : CString)
  | GetStringUTFChars (s : jstring) (out_copy : Nat)
  | GetStringUTFLength (s : jstring)
  | ReleaseStringUTFChars (s : jstring) (chars : CharPtr)
deriving DecidableEq

/-- One call that reached the runtime, with the interface pointer it went
through. -/
inductive Event where
  | vm (java_vm : JavaVMPtr) (c : VMCall)
  | jni (env : JNIEnvPtr) (c : JNICall)
deriving DecidableEq

/-- Log of the calls made so far, oldest first. -/
abbrev World := List Event

/-- The host runtime as seen from native code.  `ret` is the value a thread
interface function returns.  `GetEnv` and `AttachCurrentThread` receive the
current content of the out-parameter and give the result code together with
the content of the out-parameter after the call. -/
structure Runtime where
  ret : World → JNIEnvPtr → JNICall → Nat
  GetEnv : World → JavaVMPtr → JNIEnvPtr → jint × JNIEnvPtr
  AttachCurrentThread : World → JavaVMPtr → JNIEnvPtr → jint × JNIEnvPtr

/-- Performs one thread-interface call: the runtime answers and the call is
logged. -/
def jniCall (rt : Runtime) (w : World) (env : JNIEnvPtr) (c : JNICall) : Nat × World :=
  (rt.ret w env c, w ++ [Event.jni env c])

/-! ## Process registration (`s_javaVM`, `RegisterJavaVM`) -/

/-- Initial value of the static `s_javaVM`. -/
def s_javaVM_initial : JavaVMPtr := 0

/-- Source `RegisterJavaVM`: the new value of `s_javaVM`. -/
def RegisterJavaVM (_s_javaVM : JavaVMPtr) (java_vm : JavaVMPtr) : JavaVMPtr :=
  java_vm

/-! ## `Env` -/

/-- Source class `Env`. -/
structure Env where
  m_detach : Bool
  m_env : JNIEnvPtr
deriving DecidableEq

/-- Source `Env::operator*`. -/
def Env.deref (e : Env) : JNIEnvPtr := e.m_env

/-- Source `Env::Ptr`. -/
def Env.Ptr (e : Env) : JNIEnvPtr := e.deref

/-- The two assertions of `Env::Env()`. -/
inductive Assertion where
  | javaVMRegistered
  | resultIsJNI_OK
deriving DecidableEq

/-- A failed assertion ends the process; the log up to that point is kept. -/
structure Abort where
  failed : Assertion
  log : World
deriving DecidableEq

/-- Source `Env::Env()`.  `s_javaVM` is the static at the time of the call and
`uninit` the indeterminate content of `m_env` before `GetEnv` writes it. -/
def Env.default (rt : Runtime) (s_javaVM : JavaVMPtr) (uninit : JNIEnvPtr) (w : World) :
    Except Abort (Env × World) :=
  if s_javaVM = 0 then
    Except.error ⟨Assertion.javaVMRegistered, w⟩
  else
    let r1 := rt.GetEnv w s_javaVM uninit
    let w1 := w ++ [Event.vm s_javaVM (VMCall.GetEnv JNI_VERSION_1_6)]
    if r1.1 = JNI_EDETACHED then
      let r2 := rt.AttachCurrentThread w1 s_javaVM r1.2
      let w2 := w1 ++ [Event.vm s_javaVM VMCall.AttachCurrentThread]
      let m_detach : Bool := if r2.2 ≠ 0 then true else false
      if r2.1 = JNI_OK then
        Except.ok (⟨m_detach, r2.2⟩, w2)
      else
        Except.error ⟨Assertion.resultIsJNI_OK, w2⟩
    else
      if r1.1 = JNI_OK then
        Except.ok (⟨false, r1.2⟩, w1)
      else
        Except.error ⟨Assertion.resultIsJNI_OK, w1⟩

/-- Source `Env::Env(JNIEnv*)`. -/
def Env.wrap (env : JNIEnvPtr) : Env :=
  ⟨false, env⟩

/-- Source `Env::~Env`. -/
def Env.destroy (s_javaVM : JavaVMPtr) (e : Env) (w : World) : World :=
  if e.m_detach then w ++ [Event.vm s_javaVM VMCall.DetachCurrentThread] else w

/-! ## `Holder` and `LocalRefHolder` -/

/-- Source class template `Holder<T>`. -/
structure Holder where
  m_ref : jobject
deriving DecidableEq

/-- Source `Holder::operator T`. -/
def Holder.get (h : Holder) : jobject := h.m_ref

/-- Source `Holder::operator bool`. -/
def Holder.toBool (h : Holder) : Bool := h.m_ref != 0

/-- Source class template `LocalRefHolder<T>`. -/
structure LocalRefHolder extends Holder where
  m_env : Env
deriving DecidableEq

/-- Source constructor `LocalRefHolder(Env&, T)`. -/
def LocalRefHolder.new (e : Env) (ref : jobject) : LocalRefHolder :=
  { m_ref := ref, m_env := e }

/-- Source `LocalRefHolder::~LocalRefHolder`. -/
def LocalRefHolder.destroy (rt : Runtime) (h : LocalRefHolder) (w : World) : World :=
  if h.m_ref ≠ 0 then
    (jniCall rt w h.m_env.Ptr (JNICall.DeleteLocalRef h.m_ref)).2
  else
    w

/-- Source `LocalRefHolder::Release`: the returned handle and the wrapper
afterwards. -/
def LocalRefHolder.Release (h : LocalRefHolder) : jobject × LocalRefHolder :=
  let temp := h.m_ref
  (temp, { h with m_ref := 0 })

/-- Source `LocalRefHolder::NewGlobalRef` (a const member: the wrapper is
unchanged). -/
def LocalRefHolder.NewGlobalRef (rt : Runtime) (h : LocalRefHolder) (w : World) : jobject × World :=
  jniCall rt w h.m_env.Ptr (JNICall.NewGlobalRef h.m_ref)

/-! ## `Class` and `Object` -/

/-- Source class `Class`: a `LocalRefHolder<jclass>`. -/
structure Class extends LocalRefHolder
deriving DecidableEq

/-- Source `Class::Class(Env&, char const*)`. -/
def Class.byName (rt : Runtime) (e : Env) (name : CString) (w : World) : Class × World :=
  let r := jniCall rt w e.deref (JNICall.FindClass name)
  let c : Class := { m_ref := r.1, m_env := e }
  if c.m_ref = 0 then
    let exc := jniCall rt r.2 e.deref JNICall.ExceptionOccurred
    if exc.1 ≠ 0 then
      (c, (jniCall rt exc.2 e.deref JNICall.ExceptionDescribe).2)
    else
      (c, exc.2)
  else
    (c, r.2)

/-- Source `Class::Class(Env&, jobject)`. -/
def Class.ofObject (rt : Runtime) (e : Env) (o : jobject) (w : World) : Class × World :=
  let r := jniCall rt w e.deref (JNICall.GetObjectClass o)
  ({ m_ref := r.1, m_env := e }, r.2)

/-- Destructor of `Class`: the inherited `~LocalRefHolder`. -/
def Class.destroy (rt : Runtime) (c : Class) (w : World) : World :=
  c.toLocalRefHolder.destroy rt w

/-- Inherited `Release` on a `Class`. -/
def Class.Release (c : Class) : jclass × Class :=
  let r := c.toLocalRefHolder.Release
  (r.1, { toLocalRefHolder := r.2 })

/-- Inherited `NewGlobalRef` on a `Class`. -/
def Class.NewGlobalRef (rt : Runtime) (c : Class) (w : World) : jclass × World :=
  c.toLocalRefHolder.NewGlobalRef rt w

/-- Source class `Object`: a `LocalRefHolder<jobject>`. -/
structure Object extends LocalRefHolder
deriving DecidableEq

/-- Source `Object::Object(Env&, jobject)`. -/
def Object.new (e : Env) (o : jobject) : Object :=
  { m_ref := o, m_env := e }

/-- Destructor of `Object`: the inherited `~LocalRefHolder`. -/
def Object.destroy (rt : Runtime) (o : Object) (w : World) : World :=
  o.toLocalRefHolder.destroy rt w

/-- Inherited `Release` on an `Object`. -/
def Object.Release (o : Object) : jobject × Object :=
  let r := o.toLocalRefHolder.Release
  (r.1, { toLocalRefHolder := r.2 })

/-- Inherited `NewGlobalRef` on an `Object`. -/
def Object.NewGlobalRef (rt : Runtime) (o : Object) (w : World) : jobject × World :=
  o.toLocalRefHolder.NewGlobalRef rt w

/-! ## `String` -/

/-- Source class `String`: a `LocalRefHolder<jstring>` with decoded chars. -/
structure String extends LocalRefHolder where
  m_chars : CharPtr
  m_length : Nat
  m_releaseChars : Bool
deriving DecidableEq

/-- Source `String::ReleaseChars`. -/
def String.ReleaseChars (rt : Runtime) (s : String) (w : World) : String × World :=
  if s.m_releaseChars then
    let r := jniCall rt w s.m_env.deref (JNICall.ReleaseStringUTFChars s.m_ref s.m_chars)
    ({ s with m_releaseChars := false }, r.2)
  else
    (s, w)

/-- Source `String::String(Env&, char const*, size_t)`. -/
def String.ofText (rt : Runtime) (e : Env) (p : CString) (len : Nat) (w : World) : String × World :=
  let r := jniCall rt w e.deref (JNICall.NewStringUTF p)
  ({ m_ref := r.1, m_env := e, m_chars := p.addr,
     m_length := if len = SIZE_MAX then strlen p else len,
     m_releaseChars := false }, r.2)

/-- Source `String::String(Env&, jstring, jboolean*)`; the members are
initialised in declaration order, so the chars are decoded before the length
is asked for. -/
def String.ofHandle (rt : Runtime) (e : Env) (s : jstring) (out_copy : Nat) (w : World) :
    String × World :=
  let c : Nat × World :=
    if s ≠ 0 then jniCall rt w e.deref (JNICall.GetStringUTFChars s out_copy) else (0, w)
  let l : Nat × World :=
    if s ≠ 0 then jniCall rt c.2 e.deref (JNICall.GetStringUTFLength s) else (0, c.2)
  ({ m_ref := s, m_env := e, m_chars := c.1, m_length := l.1,
     m_releaseChars := c.1 != 0 }, l.2)

/-- Source `String::~String`: its body, then the base destructor. -/
def String.destroy (rt : Runtime) (s : String) (w : World) : World :=
  let r := s.ReleaseChars rt w
  r.1.toLocalRefHolder.destroy rt r.2

/-- Source `String::Chars`. -/
def String.Chars (s : String) : CharPtr := s.m_chars

/-- Source `String::Length`. -/
def String.Length (s : String) : Nat := s.m_length

/-- Source `String::Release`: the returned handle, the wrapper afterwards and
the log. -/
def String.Release (rt : Runtime) (s : String) (w : World) : jstring × String × World :=
  let r := s.ReleaseChars rt w
  let t := r.1.toLocalRefHolder.Release
  (t.1, { r.1 with toLocalRefHolder := t.2 }, r.2)

/-- Inherited `NewGlobalRef` on a `String`. -/
def String.NewGlobalRef (rt : Runtime) (s : String) (w : World) : jstring × World :=
  s.toLocalRefHolder.NewGlobalRef rt w

/-! ## Lifetimes and observations on the log -/

/-- Public member functions a caller may invoke on a live `String`. -/
inductive StringOp where
  | Chars
  | Length
  | get
  | toBool
  | Release
  | NewGlobalRef
deriving DecidableEq

/-- Effect of one member call on the wrapper and the log (returned values are
dropped). -/
def String.step (rt : Runtime) (sw : String × World) (op : StringOp) : String × World :=
  match op with
  | StringOp.Chars => sw
  | StringOp.Length => sw
  | StringOp.get => sw
  | StringOp.toBool => sw
  | StringOp.Release => (String.Release rt sw.1 sw.2).2
  | StringOp.NewGlobalRef => (sw.1, (String.NewGlobalRef rt sw.1 sw.2).2)

/-- A whole lifetime of a constructed `String`: any member calls, then the
destructor. -/
def String.lifetime (rt : Runtime) (s : String) (w : World) (ops : List StringOp) : World :=
  let sw := ops.foldl (String.step rt) (s, w)
  String.destroy rt sw.1 sw.2

/-- Arguments of the `DeleteLocalRef` calls in a log, with the interface they
went through. -/
def deletedLocalRefs (w : World) : List (JNIEnvPtr × jobject) :=
  w.filterMap fun ev =>
    match ev with
    | Event.jni env (JNICall.DeleteLocalRef h) => some (env, h)
    | _ => none

/-- Arguments of the `DeleteGlobalRef` calls in a log. -/
def deletedGlobalRefs (w : World) : List (JNIEnvPtr × jobject) :=
  w.filterMap fun ev =>
    match ev with
    | Event.jni env (JNICall.DeleteGlobalRef h) => some (env, h)
    | _ => none

/-- Arguments of the `ReleaseStringUTFChars` calls in a log. -/
def releasedChars (w : World) : List (JNIEnvPtr × jstring × CharPtr) :=
  w.filterMap fun ev =>
    match ev with
    | Event.jni env (JNICall.ReleaseStringUTFChars s c) => some (env, s, c)
    | _ => none

/-- Number of `DetachCurrentThread` calls in a log. -/
def detachCount (w : World) : Nat :=
  w.countP fun ev =>
    match ev with
    | Event.vm _ VMCall.DetachCurrentThread => true
    | _ => false

/-- Whether an event is one of the string decode calls. -/
def isDecodeCall (ev : Event) : Bool :=
  match ev with
  | Event.jni _ (JNICall.GetStringUTFChars _ _) => true
  | Event.jni _ (JNICall.GetStringUTFLength _) => true
  | _ => false

/-- The runtime keeps the contract of `jni.h` for obtaining an interface: a
call that answers `JNI_OK` has stored a non-null interface pointer. -/
def Runtime.honoursJNI (rt : Runtime) : Prop :=
  ∀ (w : World) (vm : JavaVMPtr) (p : JNIEnvPtr),
    ((rt.GetEnv w vm p).1 = JNI_OK → (rt.GetEnv w vm p).2 ≠ 0) ∧
    ((rt.AttachCurrentThread w vm p).1 = JNI_OK → (rt.AttachCurrentThread w vm p).2 ≠ 0)

/-- Log at the end of a default construction, completed or aborted. -/
def outcomeLog (r : Except Abort (Env × World)) : World :=
  match r with
  | Except.ok p => p.2
  | Except.error a => a.log

/-! ## Sample runtimes -/

/-- A runtime on which the calling thread is not attached and attaching
succeeds with interface `7`; every thread-interface function answers null. -/
def detachedRuntime : Runtime :=
  { ret := fun _ _ _ => 0
    GetEnv := fun _ _ _ => (JNI_EDETACHED, 0)
    AttachCurrentThread := fun _ _ _ => (JNI_OK, 7) }

/-- Whether a log holds a `FindClass` call. -/
def hasLookup (w : World) : Bool :=
  w.any fun ev =>
    match ev with
    | Event.jni _ (JNICall.FindClass _) => true
    | _ => false

/-- Whether a log holds an `ExceptionClear` call. -/
def hasClear (w : World) : Bool :=
  w.any fun ev =>
    match ev with
    | Event.jni _ JNICall.ExceptionClear => true
    | _ => false

/-- A runtime that knows no class: every lookup answers null and raises a
failure, reported as throwable `9`, which stays pending until
`ExceptionClear` is called. -/
def pendingRuntime : Runtime :=
  { ret := fun w _ c =>
      match c with
      | JNICall.ExceptionOccurred => if hasLookup w && !hasClear w then 9 else 0
      | _ => 0
    GetEnv := fun _ _ _ => (JNI_OK, 3)
    AttachCurrentThread := fun _ _ _ => (JNI_OK, 3) }

/-- A runtime that decodes every string to a buffer at address `100` holding
`5` bytes, and answers handle `11` to everything else. -/
def decodingRuntime : Runtime :=
  { ret := fun _ _ c =>
      match c with
      | JNICall.GetStringUTFChars _ _ => 100
      | JNICall.GetStringUTFLength _ => 5
      | _ => 11
    GetEnv := fun _ _ _ => (JNI_OK, 3)
    AttachCurrentThread := fun _ _ _ => (JNI_OK, 3) }

/-- The class name `Missing` at address `500`, with its terminator. -/
def missingName : CString :=
  ⟨500, [77, 105, 115, 115, 105, 110, 103, 0]⟩

/-- The text `hi!` at address `1000`, with its terminator. -/
def sampleText : CString :=
  ⟨1000, [104, 105, 33, 0]⟩

/-- Bytes each `NewStringUTF` call of a log hands to the runtime: the function
receives the text pointer only, so the managed string is built from the bytes
up to the terminator. -/
def newStringBytes (w : World) : List (List Nat) :=
  w.filterMap fun ev =>
    match ev with
    | Event.jni _ (JNICall.NewStringUTF p) => some p.upToTerminator
    | _ => none

end jnipp

/-! ## Observations on an extended log -/

namespace jnipp

theorem deletedLocalRefs_append (w v : World) :
    deletedLocalRefs (w ++ v) = deletedLocalRefs w ++ deletedLocalRefs v := by
  simp [deletedLocalRefs, List.filterMap_append]

theorem deletedGlobalRefs_append (w v : World) :
    deletedGlobalRefs (w ++ v) = deletedGlobalRefs w ++ deletedGlobalRefs v := by
  simp [deletedGlobalRefs, List.filterMap_append]

theorem releasedChars_append (w v : World) :
    releasedChars (w ++ v) = releasedChars w ++ releasedChars v := by
  simp [releasedChars, List.filterMap_append]

theorem detachCount_append (w v : World) :
    detachCount (w ++ v) = detachCount w + detachCount v := by
  simp [detachCount, List.countP_append]

theorem LocalRefHolder_destroy_log (rt : Runtime) (h : LocalRefHolder) (w : World) :
    h.destroy rt w =
      w ++ (if h.m_ref ≠ 0 then [Event.jni h.m_env.m_env (JNICall.DeleteLocalRef h.m_ref)] else []) := by
  unfold LocalRefHolder.destroy jniCall Env.Ptr Env.deref
  split <;> simp

theorem String_ReleaseChars_log (rt : Runtime) (s : String) (w : World) :
    (s.ReleaseChars rt w).2 =
      w ++ (if s.m_releaseChars = true then
        [Event.jni s.m_env.m_env (JNICall.ReleaseStringUTFChars s.m_ref s.m_chars)] else []) := by
  unfold String.ReleaseChars jniCall Env.deref
  split <;> simp

theorem String_ReleaseChars_state (rt : Runtime) (s : String) (w : World) :
    (s.ReleaseChars rt w).1 = { s with m_releaseChars := false } := by
  unfold String.ReleaseChars
  split
  · rfl
  · next h =>
    have hf : s.m_releaseChars = false := by simpa using h
    cases s
    simp_all

theorem String_destroy_log (rt : Runtime) (s : String) (w : World) :
    s.destroy rt w =
      w ++ (if s.m_releaseChars = true then
              [Event.jni s.m_env.m_env (JNICall.ReleaseStringUTFChars s.m_ref s.m_chars)] else [])
        ++ (if s.m_ref ≠ 0 then [Event.jni s.m_env.m_env (JNICall.DeleteLocalRef s.m_ref)] else []) := by
  unfold String.destroy
  simp only [LocalRefHolder_destroy_log, String_ReleaseChars_log, String_ReleaseChars_state]

/-! ## Claims -/

/-- C1: destroying a scoped reference wrapper that holds handle `h` (no
`Release()` before) appends exactly one `DeleteLocalRef(h)` through the
interface of its environment when `h` is non-null, and no `DeleteLocalRef` at
all when `h` is null.  For `LocalRefHolder`, `Class` and `Object` this is the
whole effect of the destructor; for `String` it is stated on the
`DeleteLocalRef` calls of the log. -/
theorem C1_destroy_releases_exactly_once (rt : Runtime) (w : World) :
    (∀ h : LocalRefHolder,
      h.destroy rt w =
        w ++ (if h.m_ref ≠ 0 then [Event.jni h.m_env.Ptr (JNICall.DeleteLocalRef h.m_ref)] else [])) ∧
    (∀ c : Class,
      c.destroy rt w =
        w ++ (if c.m_ref ≠ 0 then [Event.jni c.m_env.Ptr (JNICall.DeleteLocalRef c.m_ref)] else [])) ∧
    (∀ o : Object,
      o.destroy rt w =
        w ++ (if o.m_ref ≠ 0 then [Event.jni o.m_env.Ptr (JNICall.DeleteLocalRef o.m_ref)] else [])) ∧
    (∀ s : String,
      deletedLocalRefs (s.destroy rt w) =
        deletedLocalRefs w ++ (if s.m_ref ≠ 0 then [(s.m_env.Ptr, s.m_ref)] else [])) := by
  refine ⟨fun h => ?_, fun c => ?_, fun o => ?_, fun s => ?_⟩
  · simpa [Env.Ptr, Env.deref] using LocalRefHolder_destroy_log rt h w
  · simpa [Env.Ptr, Env.deref, Class.destroy] using LocalRefHolder_destroy_log rt c.toLocalRefHolder w
  · simpa [Env.Ptr, Env.deref, Object.destroy] using LocalRefHolder_destroy_log rt o.toLocalRefHolder w
  · rw [String_destroy_log, deletedLocalRefs_append, deletedLocalRefs_append]
    by_cases hr : s.m_releaseChars = true <;> by_cases hz : s.m_ref = 0 <;>
      simp [hr, hz, deletedLocalRefs, Env.Ptr, Env.deref]

/-- C2: for each wrapper type, `Release()` returns the held handle and leaves
the wrapper holding null, with a false boolean test.  The scoped-reference
`Release()` takes and gives no log, so it makes no runtime call.  Destroying a
wrapper after `Release()` leaves any log unchanged: no runtime call at all. -/
theorem C2_release_then_destroy_is_silent (rt : Runtime) (w w1 : World) :
    (∀ h : LocalRefHolder,
      h.Release.1 = h.m_ref ∧ h.Release.2.m_ref = 0 ∧ h.Release.2.toBool = false ∧
      h.Release.2.m_env = h.m_env ∧ h.Release.2.destroy rt w1 = w1) ∧
    (∀ c : Class,
      c.Release.1 = c.m_ref ∧ c.Release.2.m_ref = 0 ∧ c.Release.2.toBool = false ∧
      c.Release.2.destroy rt w1 = w1) ∧
    (∀ o : Object,
      o.Release.1 = o.m_ref ∧ o.Release.2.m_ref = 0 ∧ o.Release.2.toBool = false ∧
      o.Release.2.destroy rt w1 = w1) ∧
    (∀ s : String,
      (s.Release rt w).1 = s.m_ref ∧ (s.Release rt w).2.1.m_ref = 0 ∧
      (s.Release rt w).2.1.toBool = false ∧
      deletedLocalRefs (s.Release rt w).2.2 = deletedLocalRefs w ∧
      (s.Release rt w).2.1.destroy rt w1 = w1) := by
  refine ⟨fun h => ?_, fun c => ?_, fun o => ?_, fun s => ?_⟩
  · simp [LocalRefHolder.Release, Holder.toBool, LocalRefHolder.destroy]
  · simp [Class.Release, Class.destroy, LocalRefHolder.Release, Holder.toBool,
      LocalRefHolder.destroy]
  · simp [Object.Release, Object.destroy, LocalRefHolder.Release, Holder.toBool,
      LocalRefHolder.destroy]
  · refine ⟨?_, ?_, ?_, ?_, ?_⟩
    · simp [String.Release, String_ReleaseChars_state, LocalRefHolder.Release]
    · simp [String.Release, String_ReleaseChars_state, LocalRefHolder.Release]
    · simp [String.Release, String_ReleaseChars_state, LocalRefHolder.Release, Holder.toBool]
    · simp only [String.Release, String_ReleaseChars_log, deletedLocalRefs_append]
      by_cases hr : s.m_releaseChars = true <;> simp [hr, deletedLocalRefs]
    · simp [String.Release, String_ReleaseChars_state, LocalRefHolder.Release,
        String_destroy_log]

/-- C3: promotion (`NewGlobalRef`) returns what the runtime answers for the
held handle `h`, logs only that call (so no release call), and, being a const
member, leaves the wrapper as it is.  Promoting and then destroying the wrapper
issues exactly one `DeleteLocalRef(h)` for non-null `h` and no
`DeleteGlobalRef`: the long-lived handle is left for the caller to release. -/
theorem C3_promote_keeps_scoped_release (rt : Runtime) (w : World) :
    (∀ h : LocalRefHolder,
      (h.NewGlobalRef rt w).1 = rt.ret w h.m_env.Ptr (JNICall.NewGlobalRef h.m_ref) ∧
      (h.NewGlobalRef rt w).2 = w ++ [Event.jni h.m_env.Ptr (JNICall.NewGlobalRef h.m_ref)] ∧
      deletedLocalRefs (h.NewGlobalRef rt w).2 = deletedLocalRefs w ∧
      deletedGlobalRefs (h.NewGlobalRef rt w).2 = deletedGlobalRefs w ∧
      h.destroy rt (h.NewGlobalRef rt w).2 =
        w ++ [Event.jni h.m_env.Ptr (JNICall.NewGlobalRef h.m_ref)]
          ++ (if h.m_ref ≠ 0 then [Event.jni h.m_env.Ptr (JNICall.DeleteLocalRef h.m_ref)] else []) ∧
      deletedGlobalRefs (h.destroy rt (h.NewGlobalRef rt w).2) = deletedGlobalRefs w) ∧
    (∀ c : Class,
      (c.NewGlobalRef rt w).1 = rt.ret w c.m_env.Ptr (JNICall.NewGlobalRef c.m_ref) ∧
      c.destroy rt (c.NewGlobalRef rt w).2 =
        w ++ [Event.jni c.m_env.Ptr (JNICall.NewGlobalRef c.m_ref)]
          ++ (if c.m_ref ≠ 0 then [Event.jni c.m_env.Ptr (JNICall.DeleteLocalRef c.m_ref)] else [])) ∧
    (∀ o : Object,
      (o.NewGlobalRef rt w).1 = rt.ret w o.m_env.Ptr (JNICall.NewGlobalRef o.m_ref) ∧
      o.destroy rt (o.NewGlobalRef rt w).2 =
        w ++ [Event.jni o.m_env.Ptr (JNICall.NewGlobalRef o.m_ref)]
          ++ (if o.m_ref ≠ 0 then [Event.jni o.m_env.Ptr (JNICall.DeleteLocalRef o.m_ref)] else [])) ∧
    (∀ s : String,
      (s.NewGlobalRef rt w).1 = rt.ret w s.m_env.Ptr (JNICall.NewGlobalRef s.m_ref) ∧
      deletedLocalRefs (s.destroy rt (s.NewGlobalRef rt w).2) =
        deletedLocalRefs w ++ (if s.m_ref ≠ 0 then [(s.m_env.Ptr, s.m_ref)] else []) ∧
      deletedGlobalRefs (s.destroy rt (s.NewGlobalRef rt w).2) = deletedGlobalRefs w) := by
  refine ⟨fun h => ⟨rfl, rfl, ?_, ?_, ?_, ?_⟩, fun c => ⟨rfl, ?_⟩, fun o => ⟨rfl, ?_⟩,
    fun s => ⟨rfl, ?_, ?_⟩⟩
  · simp [LocalRefHolder.NewGlobalRef, jniCall, deletedLocalRefs_append, deletedLocalRefs]
  · simp [LocalRefHolder.NewGlobalRef, jniCall, deletedGlobalRefs_append, deletedGlobalRefs]
  · simp [LocalRefHolder_destroy_log, LocalRefHolder.NewGlobalRef, jniCall, Env.Ptr, Env.deref]
  · simp only [LocalRefHolder_destroy_log, LocalRefHolder.NewGlobalRef, jniCall,
      deletedGlobalRefs_append]
    by_cases hz : h.m_ref = 0 <;> simp [hz, deletedGlobalRefs]
  · simp [Class.destroy, Class.NewGlobalRef, LocalRefHolder_destroy_log,
      LocalRefHolder.NewGlobalRef, jniCall, Env.Ptr, Env.deref]
  · simp [Object.destroy, Object.NewGlobalRef, LocalRefHolder_destroy_log,
      LocalRefHolder.NewGlobalRef, jniCall, Env.Ptr, Env.deref]
  · simp only [String_destroy_log, String.NewGlobalRef, LocalRefHolder.NewGlobalRef, jniCall,
      deletedLocalRefs_append]
    by_cases hr : s.m_releaseChars = true <;> by_cases hz : s.m_ref = 0 <;>
      simp [hr, hz, deletedLocalRefs, Env.Ptr, Env.deref]
  · simp only [String_destroy_log, String.NewGlobalRef, LocalRefHolder.NewGlobalRef, jniCall,
      deletedGlobalRefs_append]
    by_cases hr : s.m_releaseChars = true <;> by_cases hz : s.m_ref = 0 <;>
      simp [hr, hz, deletedGlobalRefs]

theorem JNI_EDETACHED_ne_OK : JNI_EDETACHED ≠ JNI_OK := by decide

theorem Env_destroy_log (s_javaVM : JavaVMPtr) (e : Env) (w : World) :
    e.destroy s_javaVM w =
      w ++ (if e.m_detach = true then [Event.vm s_javaVM VMCall.DetachCurrentThread] else []) := by
  unfold Env.destroy
  split <;> simp

theorem Env_default_log (rt : Runtime) (vm : JavaVMPtr) (uninit : JNIEnvPtr) (w : World)
    (hvm : vm ≠ 0) :
    outcomeLog (Env.default rt vm uninit w) =
      w ++ [Event.vm vm (VMCall.GetEnv JNI_VERSION_1_6)]
        ++ (if (rt.GetEnv w vm uninit).1 = JNI_EDETACHED then
              [Event.vm vm VMCall.AttachCurrentThread] else []) := by
  unfold Env.default
  simp only [hvm, if_false]
  split
  · split <;> simp [outcomeLog]
  · split <;> simp [outcomeLog]

theorem detachedRuntime_honoursJNI : detachedRuntime.honoursJNI := by
  intro w vm p
  refine ⟨fun h => ?_, fun _ => ?_⟩
  · exact absurd h JNI_EDETACHED_ne_OK
  · simp [detachedRuntime]

/-- C4: destroying an `Env` calls `DetachCurrentThread` exactly once when
`m_detach` is set (the scope owns the attachment) and not at all otherwise.
An `Env` wrapping a given interface pointer never owns the attachment and its
destruction makes no call.  A default-constructed `Env` owns the attachment
exactly when `GetEnv` answered `JNI_EDETACHED` and the attach that followed
succeeded (answered `JNI_OK` and left a non-null interface); on an attached
thread it does not own it.  Default construction itself never detaches. -/
theorem C4_detach_iff_attachment_owned (rt : Runtime) (s_javaVM : JavaVMPtr) (w : World) :
    (∀ e : Env,
      e.destroy s_javaVM w =
        w ++ (if e.m_detach = true then [Event.vm s_javaVM VMCall.DetachCurrentThread] else []) ∧
      detachCount (e.destroy s_javaVM w) = detachCount w + (if e.m_detach = true then 1 else 0)) ∧
    (∀ env : JNIEnvPtr,
      (Env.wrap env).m_detach = false ∧ (Env.wrap env).m_env = env ∧
      (Env.wrap env).destroy s_javaVM w = w) ∧
    (∀ (uninit : JNIEnvPtr) (e : Env) (w1 : World),
      Env.default rt s_javaVM uninit w = Except.ok (e, w1) →
        (e.m_detach = true ↔
          ((rt.GetEnv w s_javaVM uninit).1 = JNI_EDETACHED ∧
           (rt.AttachCurrentThread (w ++ [Event.vm s_javaVM (VMCall.GetEnv JNI_VERSION_1_6)])
              s_javaVM (rt.GetEnv w s_javaVM uninit).2).1 = JNI_OK ∧
           (rt.AttachCurrentThread (w ++ [Event.vm s_javaVM (VMCall.GetEnv JNI_VERSION_1_6)])
              s_javaVM (rt.GetEnv w s_javaVM uninit).2).2 ≠ 0)) ∧
        ((rt.GetEnv w s_javaVM uninit).1 ≠ JNI_EDETACHED → e.m_detach = false) ∧
        (rt.honoursJNI →
          (e.m_detach = true ↔
            ((rt.GetEnv w s_javaVM uninit).1 = JNI_EDETACHED ∧
             (rt.AttachCurrentThread (w ++ [Event.vm s_javaVM (VMCall.GetEnv JNI_VERSION_1_6)])
                s_javaVM (rt.GetEnv w s_javaVM uninit).2).1 = JNI_OK))) ∧
        detachCount w1 = detachCount w ∧
        detachCount (e.destroy s_javaVM w1) = detachCount w + (if e.m_detach = true then 1 else 0)) := by
  refine ⟨fun e => ⟨Env_destroy_log _ _ _, ?_⟩, fun env => ⟨rfl, rfl, ?_⟩, ?_⟩
  · rw [Env_destroy_log, detachCount_append]
    by_cases hd : e.m_detach = true <;> simp [hd, detachCount]
  · simp [Env.wrap, Env.destroy]
  · intro uninit e w1 hok
    unfold Env.default at hok
    by_cases hvm : s_javaVM = 0
    · simp [hvm] at hok
    · simp only [hvm, if_false] at hok
      by_cases hd : (rt.GetEnv w s_javaVM uninit).1 = JNI_EDETACHED
      · simp only [hd, if_true] at hok
        by_cases ha : (rt.AttachCurrentThread
            (w ++ [Event.vm s_javaVM (VMCall.GetEnv JNI_VERSION_1_6)]) s_javaVM
            (rt.GetEnv w s_javaVM uninit).2).1 = JNI_OK
        · simp only [ha, if_true, Except.ok.injEq, Prod.mk.injEq] at hok
          obtain ⟨he, hw⟩ := hok
          subst he
          subst hw
          refine ⟨?_, ?_, ?_, ?_, ?_⟩
          · simp [hd, ha]
          · intro hn
            exact absurd hd hn
          · intro hc
            have hnz := (hc (w ++ [Event.vm s_javaVM (VMCall.GetEnv JNI_VERSION_1_6)]) s_javaVM
              (rt.GetEnv w s_javaVM uninit).2).2 ha
            simp [hd, ha, hnz]
          · simp [detachCount_append, detachCount]
          · rw [Env_destroy_log, detachCount_append, detachCount_append, detachCount_append]
            split <;> simp [detachCount]
        · simp [ha] at hok
      · simp only [hd, if_false] at hok
        by_cases hk : (rt.GetEnv w s_javaVM uninit).1 = JNI_OK
        · simp only [hk, if_true, Except.ok.injEq, Prod.mk.injEq] at hok
          obtain ⟨he, hw⟩ := hok
          subst he
          subst hw
          refine ⟨?_, ?_, ?_, ?_, ?_⟩
          · simp [hd]
          · intro _
            rfl
          · intro _
            simp [hd]
          · simp [detachCount_append, detachCount]
          · simp [Env.destroy, detachCount_append, detachCount]
        · simp [hk] at hok

/-- C4 at a concrete run: on `detachedRuntime` the default construction
completes owning the attachment, and destruction then detaches once. -/
theorem C4_detach_iff_attachment_owned_witness :
    Env.default detachedRuntime 1 0 [] =
        Except.ok (⟨true, 7⟩,
          [Event.vm 1 (VMCall.GetEnv JNI_VERSION_1_6), Event.vm 1 VMCall.AttachCurrentThread]) ∧
      detachCount ((⟨true, 7⟩ : Env).destroy 1
          [Event.vm 1 (VMCall.GetEnv JNI_VERSION_1_6), Event.vm 1 VMCall.AttachCurrentThread]) =
        detachCount [] + (if (⟨true, 7⟩ : Env).m_detach = true then 1 else 0) :=
  ⟨by rfl,
   ((C4_detach_iff_attachment_owned detachedRuntime 1 []).2.2 0 ⟨true, 7⟩
      [Event.vm 1 (VMCall.GetEnv JNI_VERSION_1_6), Event.vm 1 VMCall.AttachCurrentThread]
      (by rfl)).2.2.2.2⟩

/-- C10: default construction of an `Env` aborts on the registration assertion
whenever `s_javaVM` is null (as it is before `RegisterJavaVM`).  With a
registered interface `vm`, it queries `GetEnv`, attempts
`AttachCurrentThread` only when `GetEnv` answered `JNI_EDETACHED`, and aborts
exactly when the last of these calls did not answer `JNI_OK`.  A completed
construction holds the interface pointer that call stored, the accessors return
it unchanged, and it is non-null on every runtime that keeps the `jni.h`
contract (`JNI_OK` comes with a stored interface). -/
theorem C10_default_construction_fatal_or_valid (rt : Runtime) (uninit : JNIEnvPtr) (w : World) :
    (Env.default rt s_javaVM_initial uninit w =
        Except.error ⟨Assertion.javaVMRegistered, w⟩) ∧
    (∀ vm : JavaVMPtr, vm ≠ 0 →
      (outcomeLog (Env.default rt (RegisterJavaVM s_javaVM_initial vm) uninit w) =
        w ++ [Event.vm vm (VMCall.GetEnv JNI_VERSION_1_6)]
          ++ (if (rt.GetEnv w vm uninit).1 = JNI_EDETACHED then
                [Event.vm vm VMCall.AttachCurrentThread] else [])) ∧
      ((∃ a : Abort, Env.default rt (RegisterJavaVM s_javaVM_initial vm) uninit w = Except.error a) ↔
        ¬ ((rt.GetEnv w vm uninit).1 = JNI_OK ∨
            ((rt.GetEnv w vm uninit).1 = JNI_EDETACHED ∧
             (rt.AttachCurrentThread (w ++ [Event.vm vm (VMCall.GetEnv JNI_VERSION_1_6)])
                vm (rt.GetEnv w vm uninit).2).1 = JNI_OK))) ∧
      (∀ a : Abort, Env.default rt (RegisterJavaVM s_javaVM_initial vm) uninit w = Except.error a →
        a.failed = Assertion.resultIsJNI_OK) ∧
      (∀ (e : Env) (w1 : World),
        Env.default rt (RegisterJavaVM s_javaVM_initial vm) uninit w = Except.ok (e, w1) →
          e.m_env =
            (if (rt.GetEnv w vm uninit).1 = JNI_EDETACHED then
              (rt.AttachCurrentThread (w ++ [Event.vm vm (VMCall.GetEnv JNI_VERSION_1_6)])
                vm (rt.GetEnv w vm uninit).2).2
             else (rt.GetEnv w vm uninit).2) ∧
          e.Ptr = e.m_env ∧ e.deref = e.m_env ∧
          (rt.honoursJNI → e.m_env ≠ 0 ∧ e.Ptr ≠ 0 ∧ e.deref ≠ 0))) := by
  refine ⟨by simp [Env.default, s_javaVM_initial], fun vm hvm => ⟨?_, ?_, ?_, ?_⟩⟩
  · exact Env_default_log rt vm uninit w hvm
  · unfold Env.default RegisterJavaVM
    simp only [hvm, if_false]
    by_cases hd : (rt.GetEnv w vm uninit).1 = JNI_EDETACHED
    · have hno : (rt.GetEnv w vm uninit).1 ≠ JNI_OK := by
        rw [hd]
        exact JNI_EDETACHED_ne_OK
      simp only [hd, if_true]
      split <;> simp_all
    · simp only [hd, if_false]
      split <;> simp_all
  · intro a ha
    unfold Env.default RegisterJavaVM at ha
    simp only [hvm, if_false] at ha
    split at ha
    · split at ha
      · simp at ha
      · simp only [Except.error.injEq] at ha
        rw [← ha]
    · split at ha
      · simp at ha
      · simp only [Except.error.injEq] at ha
        rw [← ha]
  · intro e w1 hok
    unfold Env.default RegisterJavaVM at hok
    simp only [hvm, if_false] at hok
    by_cases hd : (rt.GetEnv w vm uninit).1 = JNI_EDETACHED
    · simp only [hd, if_true] at hok
      by_cases ha : (rt.AttachCurrentThread
          (w ++ [Event.vm vm (VMCall.GetEnv JNI_VERSION_1_6)]) vm
          (rt.GetEnv w vm uninit).2).1 = JNI_OK
      · simp only [ha, if_true, Except.ok.injEq, Prod.mk.injEq] at hok
        obtain ⟨he, _⟩ := hok
        subst he
        refine ⟨by simp [hd], rfl, rfl, fun hc => ?_⟩
        have hnz := (hc (w ++ [Event.vm vm (VMCall.GetEnv JNI_VERSION_1_6)]) vm
          (rt.GetEnv w vm uninit).2).2 ha
        exact ⟨hnz, hnz, hnz⟩
      · simp [ha] at hok
    · simp only [hd, if_false] at hok
      by_cases hk : (rt.GetEnv w vm uninit).1 = JNI_OK
      · simp only [hk, if_true, Except.ok.injEq, Prod.mk.injEq] at hok
        obtain ⟨he, _⟩ := hok
        subst he
        refine ⟨by simp [hd], rfl, rfl, fun hc => ?_⟩
        have hnz := (hc w vm uninit).1 hk
        exact ⟨hnz, hnz, hnz⟩
      · simp [hk] at hok

/-- C10 at a concrete run: with interface `1` registered on
`detachedRuntime`, which keeps the contract, the completed `Env` holds the
non-null interface `7`. -/
theorem C10_default_construction_fatal_or_valid_witness :
    (1 : JavaVMPtr) ≠ 0 ∧
      Env.default detachedRuntime (RegisterJavaVM s_javaVM_initial 1) 0 [] =
        Except.ok (⟨true, 7⟩,
          [Event.vm 1 (VMCall.GetEnv JNI_VERSION_1_6), Event.vm 1 VMCall.AttachCurrentThread]) ∧
      detachedRuntime.honoursJNI ∧
      ((⟨true, 7⟩ : Env).m_env ≠ 0 ∧ (⟨true, 7⟩ : Env).Ptr ≠ 0 ∧ (⟨true, 7⟩ : Env).deref ≠ 0) :=
  ⟨by decide, by rfl, detachedRuntime_honoursJNI,
   (((C10_default_construction_fatal_or_valid detachedRuntime 0 []).2 1 (by decide)).2.2.2
      ⟨true, 7⟩
      [Event.vm 1 (VMCall.GetEnv JNI_VERSION_1_6), Event.vm 1 VMCall.AttachCurrentThread]
      (by rfl)).2.2.2 detachedRuntime_honoursJNI⟩

theorem String_step_releasedChars (rt : Runtime) (s : String) (w : World) (op : StringOp) :
    releasedChars (String.step rt (s, w) op).2 ++
        (if (String.step rt (s, w) op).1.m_releaseChars = true then
          [((String.step rt (s, w) op).1.m_env.m_env, (String.step rt (s, w) op).1.m_ref,
            (String.step rt (s, w) op).1.m_chars)] else []) =
      releasedChars w ++
        (if s.m_releaseChars = true then [(s.m_env.m_env, s.m_ref, s.m_chars)] else []) := by
  cases op
  case Release =>
    simp only [String.step, String.Release, String_ReleaseChars_log, String_ReleaseChars_state,
      releasedChars_append]
    by_cases hr : s.m_releaseChars = true <;> simp [hr, releasedChars]
  case NewGlobalRef =>
    simp [String.step, String.NewGlobalRef, LocalRefHolder.NewGlobalRef, jniCall,
      releasedChars_append, releasedChars]
  all_goals simp [String.step]

theorem String_destroy_releasedChars (rt : Runtime) (s : String) (w : World) :
    releasedChars (s.destroy rt w) =
      releasedChars w ++
        (if s.m_releaseChars = true then [(s.m_env.m_env, s.m_ref, s.m_chars)] else []) := by
  rw [String_destroy_log, releasedChars_append, releasedChars_append]
  by_cases hr : s.m_releaseChars = true <;> by_cases hz : s.m_ref = 0 <;>
    simp [hr, hz, releasedChars]

theorem String_lifetime_releasedChars (rt : Runtime) (ops : List StringOp) :
    ∀ (s : String) (w : World),
      releasedChars (String.lifetime rt s w ops) =
        releasedChars w ++
          (if s.m_releaseChars = true then [(s.m_env.m_env, s.m_ref, s.m_chars)] else []) := by
  induction ops with
  | nil =>
    intro s w
    simpa [String.lifetime] using String_destroy_releasedChars rt s w
  | cons op ops ih =>
    intro s w
    have hstep := String_step_releasedChars rt s w op
    have hrec := ih (String.step rt (s, w) op).1 (String.step rt (s, w) op).2
    simp only [String.lifetime, List.foldl_cons] at hrec ⊢
    rw [hrec, hstep]

/-- C5 as stated fails: on `pendingRuntime` the lookup of `Missing` gives a
null class reference and the calls made are the lookup, the query of the
pending failure and its description.  No `ExceptionClear` is issued, and the
failure is still reported as pending to a query made after the construction. -/
theorem C5_no_clear_call_counterexample :
    (Class.byName pendingRuntime (Env.wrap 3) missingName []).1.toBool = false ∧
    (Class.byName pendingRuntime (Env.wrap 3) missingName []).2 =
      [Event.jni 3 (JNICall.FindClass missingName), Event.jni 3 JNICall.ExceptionOccurred,
       Event.jni 3 JNICall.ExceptionDescribe] ∧
    Event.jni 3 JNICall.ExceptionClear ∉
      (Class.byName pendingRuntime (Env.wrap 3) missingName []).2 ∧
    pendingRuntime.ret (Class.byName pendingRuntime (Env.wrap 3) missingName []).2 3
      JNICall.ExceptionOccurred ≠ 0 := by
  refine ⟨by rfl, by rfl, ?_, ?_⟩
  · have h : (Class.byName pendingRuntime (Env.wrap 3) missingName []).2 =
        [Event.jni 3 (JNICall.FindClass missingName), Event.jni 3 JNICall.ExceptionOccurred,
         Event.jni 3 JNICall.ExceptionDescribe] := by rfl
    rw [h]
    decide
  · have h : pendingRuntime.ret (Class.byName pendingRuntime (Env.wrap 3) missingName []).2 3
        JNICall.ExceptionOccurred = 9 := by rfl
    rw [h]
    decide

/-- C5 amended: when `FindClass` answers null the constructed `Class` holds
null (boolean test false) and the calls made are the lookup, exactly one
`ExceptionOccurred` and, exactly when that query answered a non-null
throwable, one `ExceptionDescribe` after it.  When `FindClass` answers a
non-null handle the `Class` holds it and the lookup is the only call.  In
neither case is `ExceptionClear` called. -/
theorem C5_lookup_failure_is_queried_and_described (rt : Runtime) (e : Env) (name : CString)
    (w : World) :
    (rt.ret w e.deref (JNICall.FindClass name) = 0 →
      (Class.byName rt e name w).1.m_ref = 0 ∧
      (Class.byName rt e name w).1.toBool = false ∧
      (Class.byName rt e name w).2 =
        w ++ [Event.jni e.deref (JNICall.FindClass name), Event.jni e.deref JNICall.ExceptionOccurred]
          ++ (if rt.ret (w ++ [Event.jni e.deref (JNICall.FindClass name)]) e.deref
                  JNICall.ExceptionOccurred ≠ 0
              then [Event.jni e.deref JNICall.ExceptionDescribe] else [])) ∧
    (rt.ret w e.deref (JNICall.FindClass name) ≠ 0 →
      (Class.byName rt e name w).1.m_ref = rt.ret w e.deref (JNICall.FindClass name) ∧
      (Class.byName rt e name w).1.toBool = true ∧
      (Class.byName rt e name w).2 = w ++ [Event.jni e.deref (JNICall.FindClass name)]) ∧
    (∀ v : World, (Class.byName rt e name w).2 = w ++ v →
      ∀ env : JNIEnvPtr, Event.jni env JNICall.ExceptionClear ∉ v) := by
  have hnull : rt.ret w e.deref (JNICall.FindClass name) = 0 →
      (Class.byName rt e name w).2 =
        w ++ [Event.jni e.deref (JNICall.FindClass name), Event.jni e.deref JNICall.ExceptionOccurred]
          ++ (if rt.ret (w ++ [Event.jni e.deref (JNICall.FindClass name)]) e.deref
                  JNICall.ExceptionOccurred ≠ 0
              then [Event.jni e.deref JNICall.ExceptionDescribe] else []) := by
    intro h0
    simp only [Class.byName, jniCall, h0, if_true]
    split <;> simp
  have hfound : rt.ret w e.deref (JNICall.FindClass name) ≠ 0 →
      (Class.byName rt e name w).2 = w ++ [Event.jni e.deref (JNICall.FindClass name)] := by
    intro h1
    simp [Class.byName, jniCall, h1]
  have href : (Class.byName rt e name w).1.m_ref = rt.ret w e.deref (JNICall.FindClass name) := by
    simp only [Class.byName, jniCall]
    split
    · split <;> rfl
    · rfl
  refine ⟨fun h0 => ⟨?_, ?_, hnull h0⟩, fun h1 => ⟨href, ?_, hfound h1⟩, ?_⟩
  · rw [href, h0]
  · simp [Holder.toBool, href, h0]
  · simp [Holder.toBool, href, h1]
  · intro v hv env hmem
    by_cases h0 : rt.ret w e.deref (JNICall.FindClass name) = 0
    · rw [hnull h0, List.append_assoc] at hv
      have hv2 := List.append_cancel_left hv
      rw [← hv2] at hmem
      by_cases hx : rt.ret (w ++ [Event.jni e.deref (JNICall.FindClass name)]) e.deref
          JNICall.ExceptionOccurred = 0 <;> simp [hx] at hmem
    · rw [hfound h0] at hv
      have hv2 := List.append_cancel_left hv
      rw [← hv2] at hmem
      simp at hmem

/-- C5 amended, at a concrete run: the lookup of `Missing` on
`pendingRuntime`. -/
theorem C5_lookup_failure_is_queried_and_described_witness :
    pendingRuntime.ret [] (Env.wrap 3).deref (JNICall.FindClass missingName) = 0 ∧
    ((Class.byName pendingRuntime (Env.wrap 3) missingName []).1.m_ref = 0 ∧
      (Class.byName pendingRuntime (Env.wrap 3) missingName []).1.toBool = false ∧
      (Class.byName pendingRuntime (Env.wrap 3) missingName []).2 =
        [] ++ [Event.jni (Env.wrap 3).deref (JNICall.FindClass missingName),
               Event.jni (Env.wrap 3).deref JNICall.ExceptionOccurred]
          ++ (if pendingRuntime.ret
                  ([] ++ [Event.jni (Env.wrap 3).deref (JNICall.FindClass missingName)])
                  (Env.wrap 3).deref JNICall.ExceptionOccurred ≠ 0
              then [Event.jni (Env.wrap 3).deref JNICall.ExceptionDescribe] else [])) :=
  ⟨by rfl,
   (C5_lookup_failure_is_queried_and_described pendingRuntime (Env.wrap 3) missingName []).1
     (by rfl)⟩

theorem String_ofHandle_nonnull (rt : Runtime) (e : Env) (s : jstring) (out_copy : Nat)
    (w : World) (hs : s ≠ 0) :
    String.ofHandle rt e s out_copy w =
      ({ m_ref := s, m_env := e,
         m_chars := rt.ret w e.deref (JNICall.GetStringUTFChars s out_copy),
         m_length := rt.ret (w ++ [Event.jni e.deref (JNICall.GetStringUTFChars s out_copy)])
           e.deref (JNICall.GetStringUTFLength s),
         m_releaseChars := rt.ret w e.deref (JNICall.GetStringUTFChars s out_copy) != 0 },
       w ++ [Event.jni e.deref (JNICall.GetStringUTFChars s out_copy),
             Event.jni e.deref (JNICall.GetStringUTFLength s)]) := by
  simp [String.ofHandle, jniCall, hs]

theorem String_ofHandle_null (rt : Runtime) (e : Env) (out_copy : Nat) (w : World) :
    String.ofHandle rt e 0 out_copy w =
      ({ m_ref := 0, m_env := e, m_chars := 0, m_length := 0, m_releaseChars := false }, w) := by
  simp [String.ofHandle]

/-- C6: let a `String` be decoded from a non-null handle `s` and let the
decode give a non-null buffer.  Destruction alone logs the buffer release
`ReleaseStringUTFChars(s, buffer)` and then `DeleteLocalRef(s)`, in that
order.  `Release()` logs the buffer release before it returns `s`, and the
destruction that follows logs nothing.  Over either lifetime, and over any
other sequence of member calls ended by destruction, the buffer is released
exactly once. -/
theorem C6_buffer_released_once_before_handle (rt : Runtime) (e : Env) (s : jstring)
    (out_copy : Nat) (w : World) (hs : s ≠ 0)
    (hbuf : rt.ret w e.deref (JNICall.GetStringUTFChars s out_copy) ≠ 0) (w1 w2 : World) :
    (String.ofHandle rt e s out_copy w).1.destroy rt w1 =
      w1 ++ [Event.jni e.deref
               (JNICall.ReleaseStringUTFChars s
                 (rt.ret w e.deref (JNICall.GetStringUTFChars s out_copy))),
             Event.jni e.Ptr (JNICall.DeleteLocalRef s)] ∧
    ((String.ofHandle rt e s out_copy w).1.Release rt w1).1 = s ∧
    ((String.ofHandle rt e s out_copy w).1.Release rt w1).2.2 =
      w1 ++ [Event.jni e.deref
               (JNICall.ReleaseStringUTFChars s
                 (rt.ret w e.deref (JNICall.GetStringUTFChars s out_copy)))] ∧
    ((String.ofHandle rt e s out_copy w).1.Release rt w1).2.1.destroy rt w2 = w2 ∧
    (∀ ops : List StringOp,
      releasedChars (String.lifetime rt (String.ofHandle rt e s out_copy w).1 w1 ops) =
        releasedChars w1 ++
          [(e.deref, s, rt.ret w e.deref (JNICall.GetStringUTFChars s out_copy))]) := by
  have hb : rt.ret w e.m_env (JNICall.GetStringUTFChars s out_copy) ≠ 0 := hbuf
  rw [String_ofHandle_nonnull rt e s out_copy w hs]
  refine ⟨?_, ?_, ?_, ?_, fun ops => ?_⟩
  · simp [String_destroy_log, hb, hs, Env.Ptr, Env.deref]
  · simp [String.Release, String_ReleaseChars_state, LocalRefHolder.Release]
  · simp [String.Release, String_ReleaseChars_log, hb, Env.deref]
  · simp [String.Release, String_ReleaseChars_state, LocalRefHolder.Release, String_destroy_log]
  · rw [String_lifetime_releasedChars]
    simp [hb, Env.deref]

/-- C6 at a concrete run: handle `4` decoded on `decodingRuntime`, then
destroyed. -/
theorem C6_buffer_released_once_before_handle_witness :
    (4 : jstring) ≠ 0 ∧
    decodingRuntime.ret [] (Env.wrap 3).deref (JNICall.GetStringUTFChars 4 0) ≠ 0 ∧
    (String.ofHandle decodingRuntime (Env.wrap 3) 4 0 []).1.destroy decodingRuntime [] =
      [] ++ [Event.jni (Env.wrap 3).deref
               (JNICall.ReleaseStringUTFChars 4
                 (decodingRuntime.ret [] (Env.wrap 3).deref (JNICall.GetStringUTFChars 4 0))),
             Event.jni (Env.wrap 3).Ptr (JNICall.DeleteLocalRef 4)] :=
  ⟨by decide, by decide,
   (C6_buffer_released_once_before_handle decodingRuntime (Env.wrap 3) 4 0 [] (by decide)
      (by decide) [] []).1⟩

/-- C7 as stated fails: on `decodingRuntime`, decoding handle `4` and calling
`Release()` returns `4` and leaves a null handle with no release pending, but
`Chars()` is still the buffer address `100` and `Length()` still `5`, whereas a
`String` decoded from the null handle has `Chars()` null and `Length()` zero. -/
theorem C7_chars_and_length_not_reset_counterexample :
    ((String.ofHandle decodingRuntime (Env.wrap 3) 4 0 []).1.Release decodingRuntime
        (String.ofHandle decodingRuntime (Env.wrap 3) 4 0 []).2).1 = 4 ∧
    ((String.ofHandle decodingRuntime (Env.wrap 3) 4 0 []).1.Release decodingRuntime
        (String.ofHandle decodingRuntime (Env.wrap 3) 4 0 []).2).2.1.Chars = 100 ∧
    ((String.ofHandle decodingRuntime (Env.wrap 3) 4 0 []).1.Release decodingRuntime
        (String.ofHandle decodingRuntime (Env.wrap 3) 4 0 []).2).2.1.Length = 5 ∧
    (String.ofHandle decodingRuntime (Env.wrap 3) 0 0 []).1.Chars = 0 ∧
    (String.ofHandle decodingRuntime (Env.wrap 3) 0 0 []).1.Length = 0 ∧
    ((String.ofHandle decodingRuntime (Env.wrap 3) 4 0 []).1.Release decodingRuntime
        (String.ofHandle decodingRuntime (Env.wrap 3) 4 0 []).2).2.1 ≠
      (String.ofHandle decodingRuntime (Env.wrap 3) 0 0 []).1 := by
  refine ⟨by rfl, by rfl, by rfl, by rfl, by rfl, ?_⟩
  intro h
  have hc := congrArg String.Chars h
  have h1 : ((String.ofHandle decodingRuntime (Env.wrap 3) 4 0 []).1.Release decodingRuntime
        (String.ofHandle decodingRuntime (Env.wrap 3) 4 0 []).2).2.1.Chars = 100 := by rfl
  have h2 : (String.ofHandle decodingRuntime (Env.wrap 3) 0 0 []).1.Chars = 0 := by rfl
  rw [h1, h2] at hc
  exact absurd hc (by decide)

/-- C7 amended: decoding a non-null handle `s` and then calling `Release()`
returns `s` and leaves the wrapper with a null handle (boolean test false) and
no buffer release pending, as in a `String` decoded from the null handle; the
destruction that follows makes no call.  `Chars()` and `Length()` keep the
values of the decode: they are not reset. -/
theorem C7_release_after_decode (rt : Runtime) (e : Env) (s : jstring) (out_copy : Nat)
    (w w1 : World) (hs : s ≠ 0) :
    ((String.ofHandle rt e s out_copy w).1.Release rt (String.ofHandle rt e s out_copy w).2).1 = s ∧
    ((String.ofHandle rt e s out_copy w).1.Release rt
        (String.ofHandle rt e s out_copy w).2).2.1.m_ref =
      (String.ofHandle rt e 0 out_copy w).1.m_ref ∧
    ((String.ofHandle rt e s out_copy w).1.Release rt
        (String.ofHandle rt e s out_copy w).2).2.1.m_ref = 0 ∧
    ((String.ofHandle rt e s out_copy w).1.Release rt
        (String.ofHandle rt e s out_copy w).2).2.1.toBool = false ∧
    ((String.ofHandle rt e s out_copy w).1.Release rt
        (String.ofHandle rt e s out_copy w).2).2.1.m_releaseChars =
      (String.ofHandle rt e 0 out_copy w).1.m_releaseChars ∧
    ((String.ofHandle rt e s out_copy w).1.Release rt
        (String.ofHandle rt e s out_copy w).2).2.1.m_releaseChars = false ∧
    ((String.ofHandle rt e s out_copy w).1.Release rt
        (String.ofHandle rt e s out_copy w).2).2.1.Chars =
      rt.ret w e.deref (JNICall.GetStringUTFChars s out_copy) ∧
    ((String.ofHandle rt e s out_copy w).1.Release rt
        (String.ofHandle rt e s out_copy w).2).2.1.Length =
      rt.ret (w ++ [Event.jni e.deref (JNICall.GetStringUTFChars s out_copy)]) e.deref
        (JNICall.GetStringUTFLength s) ∧
    ((String.ofHandle rt e s out_copy w).1.Release rt
        (String.ofHandle rt e s out_copy w).2).2.1.destroy rt w1 = w1 := by
  rw [String_ofHandle_nonnull rt e s out_copy w hs, String_ofHandle_null]
  simp [String.Release, String_ReleaseChars_state, LocalRefHolder.Release, Holder.toBool,
    String.Chars, String.Length, String_destroy_log]

/-- C7 amended, at a concrete run: handle `4` decoded on `decodingRuntime`. -/
theorem C7_release_after_decode_witness :
    (4 : jstring) ≠ 0 ∧
    ((String.ofHandle decodingRuntime (Env.wrap 3) 4 0 []).1.Release decodingRuntime
        (String.ofHandle decodingRuntime (Env.wrap 3) 4 0 []).2).1 = 4 :=
  ⟨by decide, (C7_release_after_decode decodingRuntime (Env.wrap 3) 4 0 [] [] (by decide)).1⟩

/-- C8: a `String` built from the null handle makes no runtime call at
construction (so no decode call), has `Chars()` null and `Length()` zero, and
no buffer release is issued over any lifetime.  A `String` built from a
non-null handle `s` asks the runtime to decode `s`, passing the out-parameter
of the caller through, and then asks for the decoded length; `Chars()` and
`Length()` are the two answers, a buffer release is owed exactly when the
buffer is non-null, and over any lifetime that release is issued once when
owed and never otherwise. -/
theorem C8_decode_guarded_by_null_check (rt : Runtime) (e : Env) (out_copy : Nat) (w : World) :
    ((String.ofHandle rt e 0 out_copy w).2 = w ∧
      (String.ofHandle rt e 0 out_copy w).1.m_ref = 0 ∧
      (String.ofHandle rt e 0 out_copy w).1.Chars = 0 ∧
      (String.ofHandle rt e 0 out_copy w).1.Length = 0 ∧
      (String.ofHandle rt e 0 out_copy w).1.m_releaseChars = false ∧
      (∀ (w1 : World) (ops : List StringOp),
        releasedChars (String.lifetime rt (String.ofHandle rt e 0 out_copy w).1 w1 ops) =
          releasedChars w1)) ∧
    (∀ s : jstring, s ≠ 0 →
      (String.ofHandle rt e s out_copy w).2 =
        w ++ [Event.jni e.deref (JNICall.GetStringUTFChars s out_copy),
              Event.jni e.deref (JNICall.GetStringUTFLength s)] ∧
      (String.ofHandle rt e s out_copy w).1.m_ref = s ∧
      (String.ofHandle rt e s out_copy w).1.Chars =
        rt.ret w e.deref (JNICall.GetStringUTFChars s out_copy) ∧
      (String.ofHandle rt e s out_copy w).1.Length =
        rt.ret (w ++ [Event.jni e.deref (JNICall.GetStringUTFChars s out_copy)]) e.deref
          (JNICall.GetStringUTFLength s) ∧
      ((String.ofHandle rt e s out_copy w).1.m_releaseChars = true ↔
        (String.ofHandle rt e s out_copy w).1.Chars ≠ 0) ∧
      (∀ (w1 : World) (ops : List StringOp),
        releasedChars (String.lifetime rt (String.ofHandle rt e s out_copy w).1 w1 ops) =
          releasedChars w1 ++
            (if rt.ret w e.deref (JNICall.GetStringUTFChars s out_copy) ≠ 0 then
              [(e.deref, s, rt.ret w e.deref (JNICall.GetStringUTFChars s out_copy))]
             else []))) := by
  refine ⟨?_, fun s hs => ?_⟩
  · rw [String_ofHandle_null]
    refine ⟨rfl, rfl, rfl, rfl, rfl, fun w1 ops => ?_⟩
    rw [String_lifetime_releasedChars]
    simp
  · rw [String_ofHandle_nonnull rt e s out_copy w hs]
    refine ⟨rfl, rfl, rfl, rfl, ?_, fun w1 ops => ?_⟩
    · simp [String.Chars]
    · rw [String_lifetime_releasedChars]
      by_cases hb : rt.ret w e.m_env (JNICall.GetStringUTFChars s out_copy) = 0 <;>
        simp [hb, Env.deref]

/-- C8 at a concrete run: handle `4` decoded on `decodingRuntime`. -/
theorem C8_decode_guarded_by_null_check_witness :
    (4 : jstring) ≠ 0 ∧
    (String.ofHandle decodingRuntime (Env.wrap 3) 4 0 []).2 =
      [] ++ [Event.jni (Env.wrap 3).deref (JNICall.GetStringUTFChars 4 0),
             Event.jni (Env.wrap 3).deref (JNICall.GetStringUTFLength 4)] :=
  ⟨by decide,
   ((C8_decode_guarded_by_null_check decodingRuntime (Env.wrap 3) 0 []).2 4 (by decide)).1⟩

/-- C9 as stated fails: building a `String` from the text `hi!` with length
`1` makes the single call `NewStringUTF(p)`, which carries no length, so the
managed string is created from the three bytes before the terminator and not
from the first byte only; the same call, with the same answer, is made when
the length is left unspecified.  `Length()` is `1`, not the number of bytes
the managed string was created from. -/
theorem C9_length_ignored_by_creation_counterexample :
    (String.ofText decodingRuntime (Env.wrap 3) sampleText 1 []).2 =
      [Event.jni 3 (JNICall.NewStringUTF sampleText)] ∧
    newStringBytes (String.ofText decodingRuntime (Env.wrap 3) sampleText 1 []).2 =
      [[104, 105, 33]] ∧
    sampleText.bytes.take 1 = [104] ∧
    (String.ofText decodingRuntime (Env.wrap 3) sampleText 1 []).1.Length = 1 ∧
    (String.ofText decodingRuntime (Env.wrap 3) sampleText 1 []).2 =
      (String.ofText decodingRuntime (Env.wrap 3) sampleText SIZE_MAX []).2 ∧
    (String.ofText decodingRuntime (Env.wrap 3) sampleText 1 []).1.m_ref =
      (String.ofText decodingRuntime (Env.wrap 3) sampleText SIZE_MAX []).1.m_ref ∧
    (String.ofText decodingRuntime (Env.wrap 3) sampleText SIZE_MAX []).1.Length = 3 := by
  refine ⟨by rfl, by rfl, by rfl, ?_, by rfl, by rfl, ?_⟩
  · simp [String.ofText, String.Length, SIZE_MAX]
  · simp [String.ofText, String.Length, strlen, CString.upToTerminator, sampleText]

/-- C9 amended: building a `String` from raw text `p` and a length `len`
makes the single call `NewStringUTF(p)` whatever `len` is, so the managed
string is created from the bytes of `p` before the terminator and the handle
held is the answer of the runtime.  `Length()` is `strlen(p)` when `len` is
unspecified (`SIZE_MAX`) and `len` otherwise; it is the number of bytes the
managed string was created from when `len` is unspecified or equals
`strlen(p)`.  No decode call is made, `Chars()` is `p`, no buffer release is
issued over any lifetime, and destruction only deletes the handle. -/
theorem C9_text_construction (rt : Runtime) (e : Env) (p : CString) (len : Nat) (w : World) :
    (String.ofText rt e p len w).2 = w ++ [Event.jni e.deref (JNICall.NewStringUTF p)] ∧
    newStringBytes [Event.jni e.deref (JNICall.NewStringUTF p)] = [p.upToTerminator] ∧
    (String.ofText rt e p len w).1.m_ref = rt.ret w e.deref (JNICall.NewStringUTF p) ∧
    (String.ofText rt e p len w).1.Chars = p.addr ∧
    (String.ofText rt e p len w).1.Length = (if len = SIZE_MAX then strlen p else len) ∧
    (len = SIZE_MAX ∨ len = strlen p →
      (String.ofText rt e p len w).1.Length = p.upToTerminator.length) ∧
    isDecodeCall (Event.jni e.deref (JNICall.NewStringUTF p)) = false ∧
    (∀ (w1 : World) (ops : List StringOp),
      releasedChars (String.lifetime rt (String.ofText rt e p len w).1 w1 ops) =
        releasedChars w1) ∧
    (∀ w1 : World,
      (String.ofText rt e p len w).1.destroy rt w1 =
        w1 ++ (if rt.ret w e.deref (JNICall.NewStringUTF p) ≠ 0 then
                [Event.jni e.Ptr (JNICall.DeleteLocalRef
                  (rt.ret w e.deref (JNICall.NewStringUTF p)))] else [])) := by
  refine ⟨rfl, by simp [newStringBytes], rfl, rfl, rfl, ?_, rfl, fun w1 ops => ?_, fun w1 => ?_⟩
  · intro h
    rcases h with h | h
    · simp [String.ofText, String.Length, h, strlen]
    · simp only [String.ofText, String.Length, jniCall]
      split
      · rfl
      · rw [h]
        rfl
  · rw [String_lifetime_releasedChars]
    simp [String.ofText]
  · rw [String_destroy_log]
    simp [String.ofText, jniCall, Env.Ptr, Env.deref]

/-- C9 amended, at a concrete run: the text `hi!` with its true length `3`. -/
theorem C9_text_construction_witness :
    ((3 : Nat) = SIZE_MAX ∨ 3 = strlen sampleText) ∧
    (String.ofText decodingRuntime (Env.wrap 3) sampleText 3 []).1.Length =
      sampleText.upToTerminator.length :=
  ⟨Or.inr (by rfl),
   (C9_text_construction decodingRuntime (Env.wrap 3) sampleText 3 []).2.2.2.2.2.1
     (Or.inr (by rfl))⟩

end jnipp
